import Mathlib

/-!
Verification of the rock-paper-scissors match engine.

The definitions below are a shallow embedding of the per-room match engine:

* `Move`, `Outcome`, `wins`, `judge` embed `server/game/rules.py` and the
  `Move`/`Outcome` enums of `server/game/models.py`.
* `RoomState`, `PlayerState` embed the room/player lifecycle enums used by the
  engine (`READY_CHECK` is the ready-handshake phase the engine drives).
* `PlayerCtx`, `RoomCtx` embed the dataclasses of `server/game/models.py`
  (players are kept as an insertion-ordered association list, mirroring the
  insertion-ordered Python dict `pid -> PlayerCtx`).
* `player_join`, `player_leave`, `set_ready`, `make_move`, `round_timeout`,
  `restart_match`, `abort`, and the private helpers (`start_round`,
  `resolve_round`, `after_round`, `wins_needed`, ...) embed the methods of
  `RoomFSM` (the match engine, file `ggggaaaaame2.py`, a draft of
  `server/game/transitions.py`).  Methods that mutate `self.ctx` become pure
  functions `RoomCtx -> Except String (RoomCtx × List GameEvent)`: a raised
  `TransitionError` becomes `Except.error` with the same message, and the
  `emit(type, data)` side effects become the returned event list.
-/

namespace RPS

/-- `Move` enum of `server/game/models.py`. -/
inductive Move where
  | ROCK
  | PAPER
  | SCISSORS
deriving DecidableEq, Repr, Fintype

/-- `Outcome` enum of `server/game/models.py`. -/
inductive Outcome where
  | WIN
  | LOSE
  | DRAW
deriving DecidableEq, Repr

/-- The `wins` dict of `server/game/rules.py`: each move maps to the move it
beats (`PAPER -> ROCK`, `ROCK -> SCISSORS`, `SCISSORS -> PAPER`). -/
def wins : Move → Move
  | .PAPER => .ROCK
  | .ROCK => .SCISSORS
  | .SCISSORS => .PAPER

/-- `judge` of `server/game/rules.py`: draw on equal moves, otherwise WIN
exactly when `wins[a] == b`, else LOSE. -/
def judge (a b : Move) : Outcome :=
  if a = b then .DRAW
  else if wins a = b then .WIN
  else .LOSE

/-- The beats-cycle exactly as the spec words it: ROCK beats SCISSORS,
SCISSORS beats PAPER, PAPER beats ROCK.  Written from the spec (not from the
code) so that `judge` can be compared against it. -/
def beats_spec : Move → Move → Bool
  | .ROCK, .SCISSORS => true
  | .SCISSORS, .PAPER => true
  | .PAPER, .ROCK => true
  | _, _ => false

/-- `RoomState` lifecycle enum; `READY_CHECK` is the ready-handshake phase the
match engine (`RoomFSM`) drives between rounds. -/
inductive RoomState where
  | EMPTY
  | ONE_WAITING
  | READY_CHECK
  | ROUND_AWAIT_MOVES
  | ROUND_RESULT
  | MATCH_OVER
deriving DecidableEq, Repr

/-- `PlayerState` enum of `server/game/states.py`. -/
inductive PlayerState where
  | DISCONNECTED
  | CONNECTED
  | READY
  | MOVED
  | BETWEEN_ROUNDS
deriving DecidableEq, Repr

/-- `.name` of a `RoomState` member, used in transition-error messages. -/
def RoomState.sname : RoomState → String
  | .EMPTY => "EMPTY"
  | .ONE_WAITING => "ONE_WAITING"
  | .READY_CHECK => "READY_CHECK"
  | .ROUND_AWAIT_MOVES => "ROUND_AWAIT_MOVES"
  | .ROUND_RESULT => "ROUND_RESULT"
  | .MATCH_OVER => "MATCH_OVER"

/-- `.name` of a `PlayerState` member, used in transition-error messages. -/
def PlayerState.sname : PlayerState → String
  | .DISCONNECTED => "DISCONNECTED"
  | .CONNECTED => "CONNECTED"
  | .READY => "READY"
  | .MOVED => "MOVED"
  | .BETWEEN_ROUNDS => "BETWEEN_ROUNDS"

/-- `PlayerCtx` dataclass of `server/game/models.py`. -/
structure PlayerCtx where
  pid : String
  state : PlayerState
  last_move : Option Move
  score : Nat
deriving DecidableEq, Repr

/-- `RoomCtx` dataclass of `server/game/models.py` plus the room `state` the
engine stores on it.  The Python `players` dict is insertion-ordered, so it is
embedded as a list in join order (pids unique). -/
structure RoomCtx where
  best_of : Nat
  round_id : Nat
  players : List PlayerCtx
  last_result : Option String
  state : RoomState
deriving DecidableEq, Repr

/-- The events the engine hands to `emit(type, data)`, with the payload fields
the claims are about. -/
inductive GameEvent where
  | PLAYER_JOINED (pid : String)
  | PLAYER_REJOINED (pid : String)
  | PLAYER_LEFT (pid : String)
  | PLAYER_READY (pid : String)
  | PLAYER_UNREADY (pid : String)
  | ROUND_START
  | MOVE_ACCEPTED (pid : String)
  | MOVE_DUPLICATE (pid : String)
  | ROUND_RESULT (round_id : Nat) (outcome : String) (winner : Option String)
      (pm1 pm2 : String × Move) (score : List (String × Nat))
  | ROUND_TIMEOUT_DRAW
  | ROUND_TIMEOUT_WIN (winner : String)
  | ASK_READY
  | MATCH_OVER (winner : Option String) (score : List (String × Nat)) (rounds : Nat)
  | MATCH_RESTARTED
  | MATCH_ABORTED
  | ROOM_ABORTED
deriving DecidableEq, Repr

/-- Result type of one engine dispatch: either a `TransitionError` message, or
the updated room plus the emitted events in order. -/
abbrev StepResult := Except String (RoomCtx × List GameEvent)

/-- `_require_state`: raise unless the room is in `s`. -/
def requireState (ctx : RoomCtx) (s : RoomState) : Except String Unit :=
  if ctx.state = s then .ok ()
  else .error ("Invalid state " ++ ctx.state.sname ++ ", expected " ++ s.sname)

/-- `_require_players_count`: raise unless the room holds exactly `n` players. -/
def requirePlayersCount (ctx : RoomCtx) (n : Nat) : Except String Unit :=
  if ctx.players.length = n then .ok ()
  else .error ("Requires exactly " ++ toString n ++ " players, have "
      ++ toString ctx.players.length)

/-- `pid in self.ctx.players` membership test. -/
def containsPid (ctx : RoomCtx) (pid : String) : Bool :=
  ctx.players.any (fun q => q.pid == pid)

/-- `self.ctx.players[pid]` lookup. -/
def playerOf (ctx : RoomCtx) (pid : String) : Option PlayerCtx :=
  ctx.players.find? (fun q => q.pid == pid)

/-- `_player`: lookup that raises `Unknown player` on a missing pid. -/
def getPlayer (ctx : RoomCtx) (pid : String) : Except String PlayerCtx :=
  match playerOf ctx pid with
  | some p => .ok p
  | none => .error ("Unknown player " ++ pid)

/-- In-place mutation of the participant record stored under `pid`. -/
def updatePlayer (ctx : RoomCtx) (pid : String) (f : PlayerCtx → PlayerCtx) : RoomCtx :=
  { ctx with players := ctx.players.map (fun q => if q.pid == pid then f q else q) }

/-- `_both`: requires exactly two players, then tests the predicate on both. -/
def bothP (ctx : RoomCtx) (f : PlayerCtx → Bool) : Except String Bool :=
  match requirePlayersCount ctx 2 with
  | .error e => .error e
  | .ok _ => .ok (ctx.players.all f)

/-- `wins_needed`: `best_of // 2 + 1`. -/
def wins_needed (ctx : RoomCtx) : Nat :=
  ctx.best_of / 2 + 1

/-- `_match_winner_pid`: the first player whose score reached `wins_needed`. -/
def match_winner_pid (ctx : RoomCtx) : Option String :=
  (ctx.players.find? (fun q => wins_needed ctx ≤ q.score)).map (fun q => q.pid)

/-- `_score_view`: the pid-to-score mapping, in player order. -/
def score_view (ctx : RoomCtx) : List (String × Nat) :=
  ctx.players.map (fun q => (q.pid, q.score))

/-- `_set_players`: force every participant into the given state. -/
def setPlayers (ctx : RoomCtx) (s : PlayerState) : RoomCtx :=
  { ctx with players := ctx.players.map (fun q => { q with state := s }) }

/-- `_reset_scores_and_round`. -/
def reset_scores_and_round (ctx : RoomCtx) : RoomCtx :=
  { ctx with
    round_id := 0
    last_result := none
    players := ctx.players.map (fun q => { q with score := 0, last_move := none }) }

/-- `_recalc_room_state_after_join`: recompute the room state from the player
count. -/
def recalc_after_join (ctx : RoomCtx) : RoomCtx :=
  if ctx.players.length = 0 then { ctx with state := .EMPTY }
  else if ctx.players.length = 1 then { ctx with state := .ONE_WAITING }
  else { ctx with state := .READY_CHECK }

/-- `_after_round`: on a match winner go to `MATCH_OVER`, otherwise return to
`READY_CHECK`; either way both players land in `BETWEEN_ROUNDS`.  The `draw`
argument is carried but unused, as in the source. -/
def after_round (ctx : RoomCtx) (_draw : Bool) : RoomCtx × List GameEvent :=
  match match_winner_pid ctx with
  | some w =>
      (setPlayers { ctx with state := .MATCH_OVER } .BETWEEN_ROUNDS,
        [.MATCH_OVER (some w) (score_view ctx) ctx.round_id])
  | none =>
      (setPlayers { ctx with state := .READY_CHECK } .BETWEEN_ROUNDS, [.ASK_READY])

/-- `_start_round`: `READY_CHECK -> ROUND_AWAIT_MOVES`, clearing `last_move`
and incrementing `round_id`. -/
def start_round (ctx : RoomCtx) : StepResult :=
  match requireState ctx .READY_CHECK with
  | .error e => .error e
  | .ok _ => .ok ({ ctx with
      round_id := ctx.round_id + 1
      players := ctx.players.map (fun q => { q with last_move := none, state := .READY })
      state := .ROUND_AWAIT_MOVES }, [.ROUND_START])

/-- `_resolve_round`: judge the two recorded moves, award the point, emit the
round-result event, and run the after-round logic. -/
def resolve_round (ctx : RoomCtx) : StepResult :=
  match requireState ctx .ROUND_AWAIT_MOVES with
  | .error e => .error e
  | .ok _ =>
  match ctx.players with
  | [p1, p2] =>
    match p1.last_move, p2.last_move with
    | some m1, some m2 =>
      let out := judge m1 m2
      if out = .DRAW then
        let ctx1 := { ctx with last_result := some "draw" }
        let ev := GameEvent.ROUND_RESULT ctx1.round_id "draw" none
          (p1.pid, m1) (p2.pid, m2) (score_view ctx1)
        let next := after_round ctx1 true
        .ok (next.1, ev :: next.2)
      else
        let p1n := if out = .WIN then { p1 with score := p1.score + 1 } else p1
        let p2n := if out = .WIN then p2 else { p2 with score := p2.score + 1 }
        let wpid := if out = .WIN then p1.pid else p2.pid
        let ctx1 := { ctx with players := [p1n, p2n], last_result := some (wpid ++ " wins") }
        let ev := GameEvent.ROUND_RESULT ctx1.round_id "win" (some wpid)
          (p1.pid, m1) (p2.pid, m2) (score_view ctx1)
        let next := after_round ctx1 false
        .ok (next.1, ev :: next.2)
    | _, _ => .error "Round not fully played"
  | _ => .error ("Requires exactly 2 players, have " ++ toString ctx.players.length)

/-- `player_join`: idempotent rejoin for a known pid, room-full error at two
players, otherwise append the new participant and recompute the room state. -/
def player_join (ctx : RoomCtx) (pid : String) : StepResult :=
  if containsPid ctx pid then
    let ctx1 := recalc_after_join (updatePlayer ctx pid (fun q => { q with state := .CONNECTED }))
    .ok (ctx1, [.PLAYER_REJOINED pid])
  else if 2 ≤ ctx.players.length then
    .error "Room is full (2/2)."
  else
    let ctx1 := recalc_after_join
      { ctx with players := ctx.players ++ [⟨pid, .CONNECTED, none, 0⟩] }
    .ok (ctx1, [.PLAYER_JOINED pid])

/-- `player_leave`: drop the pid (no-op when absent); with nobody left reset
to `EMPTY`, with one survivor abandon the match and wait for an opponent. -/
def player_leave (ctx : RoomCtx) (pid : String) : RoomCtx × List GameEvent :=
  if containsPid ctx pid then
    let rest := ctx.players.filter (fun q => !(q.pid == pid))
    if rest.length = 0 then
      (reset_scores_and_round { ctx with players := rest, state := .EMPTY },
        [.PLAYER_LEFT pid])
    else
      let rest2 := match rest with
        | s :: t => { s with state := PlayerState.CONNECTED } :: t
        | [] => []
      ({ ctx with players := rest2, state := .ONE_WAITING },
        [.MATCH_ABORTED, .PLAYER_LEFT pid])
  else (ctx, [])

/-- `set_ready`: legal only in `READY_CHECK`; flips readiness; once both are
ready the round starts. -/
def set_ready (ctx : RoomCtx) (pid : String) (ready : Bool) : StepResult :=
  match requireState ctx .READY_CHECK with
  | .error e => .error e
  | .ok _ =>
  match getPlayer ctx pid with
  | .error e => .error e
  | .ok p =>
  if p.state = .CONNECTED ∨ p.state = .BETWEEN_ROUNDS ∨ p.state = .READY then
    let ctx1 := updatePlayer ctx pid
      (fun q => { q with state := if ready then .READY else .CONNECTED })
    let ev := if ready then GameEvent.PLAYER_READY pid else GameEvent.PLAYER_UNREADY pid
    match bothP ctx1 (fun q => q.state == PlayerState.READY) with
    | .error e => .error e
    | .ok b =>
      if b then
        match start_round ctx1 with
        | .error e => .error e
        | .ok (ctx2, evs2) => .ok (ctx2, ev :: evs2)
      else
        .ok (ctx1, [ev])
  else
    .error ("Player " ++ pid ++ " cannot set ready from " ++ p.state.sname)

/-- `make_move`: legal only in `ROUND_AWAIT_MOVES`; a second submission by the
same participant is an acknowledged no-op; once both moved the round
resolves. -/
def make_move (ctx : RoomCtx) (pid : String) (move : Move) : StepResult :=
  match requireState ctx .ROUND_AWAIT_MOVES with
  | .error e => .error e
  | .ok _ =>
  match getPlayer ctx pid with
  | .error e => .error e
  | .ok p =>
  if p.state = .READY ∨ p.state = .MOVED then
    if p.state = .MOVED then
      .ok (ctx, [.MOVE_DUPLICATE pid])
    else
      let ctx1 := updatePlayer ctx pid
        (fun q => { q with last_move := some move, state := .MOVED })
      match bothP ctx1 (fun q => q.state == PlayerState.MOVED) with
      | .error e => .error e
      | .ok b =>
        if b then
          match resolve_round ctx1 with
          | .error e => .error e
          | .ok (ctx2, evs2) => .ok (ctx2, .MOVE_ACCEPTED pid :: evs2)
        else
          .ok (ctx1, [.MOVE_ACCEPTED pid])
  else
    .error ("Player " ++ pid ++ " cannot move from " ++ p.state.sname)

/-- `round_timeout`: no-op when both already moved; the sole mover (by
`last_move`) wins by forfeit; with no movers the round is a draw; either way
the after-round logic runs. -/
def round_timeout (ctx : RoomCtx) : StepResult :=
  match requireState ctx .ROUND_AWAIT_MOVES with
  | .error e => .error e
  | .ok _ =>
  match bothP ctx (fun q => q.state == PlayerState.MOVED) with
  | .error e => .error e
  | .ok b =>
  if b then
    .ok (ctx, [])
  else
    let moved := (ctx.players.filter (fun q => q.last_move.isSome)).map (fun q => q.pid)
    match moved with
    | [] =>
      let ctx1 := { ctx with last_result := some "draw" }
      let next := after_round ctx1 true
      .ok (next.1, .ROUND_TIMEOUT_DRAW :: next.2)
    | wpid :: _ =>
      let ctx1 := { ctx with
        players := ctx.players.map
          (fun q => if q.pid == wpid then { q with score := q.score + 1 } else q)
        last_result := some (wpid ++ " wins by timeout") }
      let next := after_round ctx1 false
      .ok (next.1, .ROUND_TIMEOUT_WIN wpid :: next.2)

/-- `restart_match`: with exactly two players, reset scores and round counter,
return both players to `CONNECTED`, room to `READY_CHECK`. -/
def restart_match (ctx : RoomCtx) : StepResult :=
  match requirePlayersCount ctx 2 with
  | .error e => .error e
  | .ok _ =>
  let ctx1 := reset_scores_and_round ctx
  let ctx2 := { ctx1 with
    players := ctx1.players.map (fun q => { q with state := .CONNECTED, last_move := none })
    state := .READY_CHECK }
  .ok (ctx2, [.MATCH_RESTARTED])

/-- `abort`: unconditional hard reset of the room. -/
def abort (ctx : RoomCtx) : RoomCtx × List GameEvent :=
  ({ ctx with players := [], state := .EMPTY, round_id := 0, last_result := none },
    [.ROOM_ABORTED])

/-- A freshly created room: `RoomCtx()` defaults (`best_of = 5`), no players,
state `EMPTY`. -/
def initRoom : RoomCtx :=
  { best_of := 5, round_id := 0, players := [], last_result := none, state := .EMPTY }

/-- Room states reachable from a fresh room through the engine's public
actions (error dispatches leave no new state). -/
inductive Reachable : RoomCtx → Prop where
  | init : Reachable initRoom
  | join {ctx ctx' : RoomCtx} {pid : String} {evs : List GameEvent} :
      Reachable ctx → player_join ctx pid = .ok (ctx', evs) → Reachable ctx'
  | leave {ctx : RoomCtx} {pid : String} :
      Reachable ctx → Reachable (player_leave ctx pid).1
  | ready {ctx ctx' : RoomCtx} {pid : String} {r : Bool} {evs : List GameEvent} :
      Reachable ctx → set_ready ctx pid r = .ok (ctx', evs) → Reachable ctx'
  | mov {ctx ctx' : RoomCtx} {pid : String} {m : Move} {evs : List GameEvent} :
      Reachable ctx → make_move ctx pid m = .ok (ctx', evs) → Reachable ctx'
  | timeout {ctx ctx' : RoomCtx} {evs : List GameEvent} :
      Reachable ctx → round_timeout ctx = .ok (ctx', evs) → Reachable ctx'
  | restart {ctx ctx' : RoomCtx} {evs : List GameEvent} :
      Reachable ctx → restart_match ctx = .ok (ctx', evs) → Reachable ctx'
  | aborted {ctx : RoomCtx} :
      Reachable ctx → Reachable (abort ctx).1

/-- Recognizer for the round-result event among emitted events. -/
def isRoundResult : GameEvent → Bool
  | .ROUND_RESULT .. => true
  | _ => false

/-- The condition the engine re-enters after every round: the room is either
over or back in the ready handshake, and it is over exactly when some score
reached `wins_needed`. -/
def post_round_ok (c : RoomCtx) : Prop :=
  (c.state = .MATCH_OVER ∨ c.state = .READY_CHECK) ∧
  (c.state = .MATCH_OVER ↔ ∃ q ∈ c.players, wins_needed c ≤ q.score)

/-- A concrete mid-round room with both moves in: P1 played ROCK, P2 played
SCISSORS. -/
def c3ctx : RoomCtx :=
  { best_of := 5, round_id := 1,
    players := [⟨"P1", .MOVED, some .ROCK, 0⟩, ⟨"P2", .MOVED, some .SCISSORS, 0⟩],
    last_result := none, state := .ROUND_AWAIT_MOVES }

/-- A concrete mid-round room: P1 already moved ROCK, P2 still to move. -/
def c5ctx : RoomCtx :=
  { best_of := 5, round_id := 1,
    players := [⟨"P1", .MOVED, some .ROCK, 0⟩, ⟨"P2", .READY, none, 0⟩],
    last_result := none, state := .ROUND_AWAIT_MOVES }

/-- A concrete reachable room used for the rejoin claim: P1 has pressed
ready (state READY), P2 is merely connected, room in `READY_CHECK`.  Reached
by join P1, join P2, setReady P1. -/
def c9ctx : RoomCtx :=
  { best_of := 5, round_id := 0,
    players := [⟨"P1", .READY, none, 0⟩, ⟨"P2", .CONNECTED, none, 0⟩],
    last_result := none, state := .READY_CHECK }

/-- A concrete room at round start: both participants READY, awaiting moves. -/
def c10ctx : RoomCtx :=
  { best_of := 5, round_id := 1,
    players := [⟨"P1", .READY, none, 0⟩, ⟨"P2", .READY, none, 0⟩],
    last_result := none, state := .ROUND_AWAIT_MOVES }

/-! ## Helper lemmas -/

theorem ok_bind {α β : Type} (a : α) (f : α → Except String β) :
    (Except.ok a : Except String α) >>= f = f a := rfl

theorem err_bind {α β : Type} (e : String) (f : α → Except String β) :
    (Except.error e : Except String α) >>= f = Except.error e := rfl

/-- `after_round` never emits a round-result event. -/
theorem filter_after_round (ctx : RoomCtx) (d : Bool) :
    (after_round ctx d).2.filter isRoundResult = [] := by
  unfold after_round
  cases hw : match_winner_pid ctx <;> simp [hw, isRoundResult]

/-- `after_round` only changes player states, never pids or scores. -/
theorem score_view_after_round (ctx : RoomCtx) (d : Bool) :
    score_view (after_round ctx d).1 = score_view ctx := by
  unfold after_round
  cases hw : match_winner_pid ctx <;>
    simp [hw, score_view, setPlayers, List.map_map, Function.comp]

/-- A match winner exists exactly when some player's score reached
`wins_needed`. -/
theorem match_winner_isSome (ctx : RoomCtx) :
    (match_winner_pid ctx).isSome = true ↔ ∃ q ∈ ctx.players, wins_needed ctx ≤ q.score := by
  unfold match_winner_pid
  simp [List.find?_isSome]

/-- `recalc_after_join` only touches the room state, not the players. -/
theorem recalc_players (c : RoomCtx) : (recalc_after_join c).players = c.players := by
  unfold recalc_after_join
  split
  · rfl
  · split <;> rfl

/-- `recalc_after_join` leaves the scalar room fields alone. -/
theorem recalc_scalars (c : RoomCtx) :
    (recalc_after_join c).round_id = c.round_id ∧
    (recalc_after_join c).best_of = c.best_of ∧
    (recalc_after_join c).last_result = c.last_result := by
  unfold recalc_after_join
  split
  · exact ⟨rfl, rfl, rfl⟩
  · split <;> exact ⟨rfl, rfl, rfl⟩

/-- The recomputed room state only depends on the player count. -/
theorem recalc_state_eq (c c' : RoomCtx) (h : c.players.length = c'.players.length) :
    (recalc_after_join c).state = (recalc_after_join c').state := by
  unfold recalc_after_join
  rw [h]
  by_cases h0 : c'.players.length = 0
  · simp [h0]
  · by_cases h1 : c'.players.length = 1
    · simp [h0, h1]
    · simp [h0, h1]

/-- Unfolding equation for `updatePlayer`. -/
theorem updatePlayer_players (c : RoomCtx) (pid : String) (f : PlayerCtx → PlayerCtx) :
    (updatePlayer c pid f).players = c.players.map (fun q => if q.pid == pid then f q else q) := rfl

/-- `after_round` keeps the player count. -/
theorem after_round_length (c : RoomCtx) (d : Bool) :
    (after_round c d).1.players.length = c.players.length := by
  unfold after_round
  cases hw : match_winner_pid c <;> simp [hw, setPlayers]

/-- `_start_round` keeps the player count. -/
theorem start_round_length {c c' : RoomCtx} {e : List GameEvent}
    (h : start_round c = .ok (c', e)) : c'.players.length = c.players.length := by
  unfold start_round at h
  split at h
  · cases h
  · cases h
    simp

/-- `_resolve_round` keeps the player count. -/
theorem resolve_round_length {c c' : RoomCtx} {e : List GameEvent}
    (h : resolve_round c = .ok (c', e)) : c'.players.length = c.players.length := by
  unfold resolve_round at h
  repeat (any_goals (first
    | (dsimp only at h)
    | (split at h <;> try (cases h))))
  all_goals simp_all [after_round_length]

/-- `set_ready` keeps the player count. -/
theorem set_ready_length {ctx ctx' : RoomCtx} {pid : String} {r : Bool}
    {evs : List GameEvent} (h : set_ready ctx pid r = .ok (ctx', evs)) :
    ctx'.players.length = ctx.players.length := by
  unfold set_ready at h
  repeat (any_goals (first
    | (dsimp only at h)
    | (split at h <;> try (cases h))))
  all_goals try simp [updatePlayer]
  rename_i heq
  rw [start_round_length heq]
  simp [updatePlayer]

/-- `make_move` keeps the player count. -/
theorem make_move_length {ctx ctx' : RoomCtx} {pid : String} {m : Move}
    {evs : List GameEvent} (h : make_move ctx pid m = .ok (ctx', evs)) :
    ctx'.players.length = ctx.players.length := by
  unfold make_move at h
  repeat (any_goals (first
    | (dsimp only at h)
    | (split at h <;> try (cases h))))
  all_goals first
    | rfl
    | simp [updatePlayer]
    | (rename_i heq
       rw [resolve_round_length heq]
       simp [updatePlayer])

/-- `round_timeout` keeps the player count. -/
theorem round_timeout_length {ctx ctx' : RoomCtx} {evs : List GameEvent}
    (h : round_timeout ctx = .ok (ctx', evs)) :
    ctx'.players.length = ctx.players.length := by
  unfold round_timeout at h
  repeat (any_goals (first
    | (dsimp only at h)
    | (split at h <;> try (cases h))))
  all_goals first
    | rfl
    | simp [after_round_length]

/-- `restart_match` keeps the player count. -/
theorem restart_match_length {ctx ctx' : RoomCtx} {evs : List GameEvent}
    (h : restart_match ctx = .ok (ctx', evs)) :
    ctx'.players.length = ctx.players.length := by
  unfold restart_match at h
  repeat (any_goals (first
    | (dsimp only at h)
    | (split at h <;> try (cases h))))
  all_goals simp [reset_scores_and_round]

/-- `player_join` keeps the player count at 2 or below. -/
theorem player_join_le {ctx ctx' : RoomCtx} {pid : String} {evs : List GameEvent}
    (hlen : ctx.players.length ≤ 2) (h : player_join ctx pid = .ok (ctx', evs)) :
    ctx'.players.length ≤ 2 := by
  unfold player_join at h
  split at h
  · cases h
    rw [recalc_players]
    simpa [updatePlayer] using hlen
  · split at h
    · cases h
    · cases h
      rw [recalc_players]
      simp only [List.length_append, List.length_cons, List.length_nil]
      omega

/-- `player_leave` never increases the player count. -/
theorem player_leave_le {ctx : RoomCtx} {pid : String}
    (hlen : ctx.players.length ≤ 2) :
    (player_leave ctx pid).1.players.length ≤ 2 := by
  unfold player_leave
  have hf : (ctx.players.filter (fun q => !(q.pid == pid))).length ≤ 2 :=
    le_trans (List.length_filter_le _ _) hlen
  split
  · dsimp only
    split
    · simpa [reset_scores_and_round] using hf
    · split
      · rename_i s t heq
        rw [heq] at hf
        simpa using hf
      · simp
  · exact hlen

/-- C6 invariant core: every reachable room holds at most two players. -/
theorem reachable_le_two {ctx : RoomCtx} (h : Reachable ctx) :
    ctx.players.length ≤ 2 := by
  induction h with
  | init => simp [initRoom]
  | join _ hok ih => exact player_join_le ih hok
  | leave _ ih => exact player_leave_le ih
  | ready _ hok ih => rw [set_ready_length hok]; exact ih
  | mov _ hok ih => rw [make_move_length hok]; exact ih
  | timeout _ hok ih => rw [round_timeout_length hok]; exact ih
  | restart _ hok ih => rw [restart_match_length hok]; exact ih
  | aborted _ _ => simp [abort]

/-! ## Claims -/

/-- C1: `judge` is total over the three moves and returns DRAW on equal moves,
WIN exactly when the first move beats the second in the fixed cycle
(ROCK beats SCISSORS, SCISSORS beats PAPER, PAPER beats ROCK), LOSE
otherwise. -/
theorem judge_cycle_total :
    ∀ a b : Move,
      judge a b = (if a = b then .DRAW else if beats_spec a b then .WIN else .LOSE) := by
  decide

/-- C2: only equal moves yield DRAW, and for distinct moves exactly one of
`judge a b`, `judge b a` is WIN while the other is LOSE. -/
theorem judge_swap_complementary :
    ∀ a b : Move,
      (judge a b = .DRAW ↔ a = b) ∧
      (a ≠ b →
        (judge a b = .WIN ∧ judge b a = .LOSE) ∨
        (judge a b = .LOSE ∧ judge b a = .WIN)) := by
  decide

/-- Witness for C2 at a concrete pair of distinct moves. -/
theorem judge_swap_complementary_witness :
    (judge .PAPER .ROCK = .WIN ∧ judge .ROCK .PAPER = .LOSE) ∨
    (judge .PAPER .ROCK = .LOSE ∧ judge .ROCK .PAPER = .WIN) :=
  (judge_swap_complementary .PAPER .ROCK).2 (by decide)

/-- C4: `wins_needed` is `best_of` floor-divided by 2 plus 1 (so a fresh
best-of-5 room needs 3 wins), and the after-round logic moves the room to
`MATCH_OVER` exactly when some participant's score has reached
`wins_needed`. -/
theorem wins_needed_match_over (ctx : RoomCtx) (d : Bool) :
    wins_needed ctx = ctx.best_of / 2 + 1 ∧
    wins_needed initRoom = 3 ∧
    ((after_round ctx d).1.state = .MATCH_OVER ↔
      ∃ q ∈ ctx.players, wins_needed ctx ≤ q.score) := by
  refine ⟨rfl, rfl, ?_⟩
  rw [← match_winner_isSome]
  unfold after_round
  cases hw : match_winner_pid ctx <;> simp [hw, setPlayers]

/-- C5: a participant who already moved this round resubmits: the engine
acknowledges with `MOVE_DUPLICATE` and the room context is returned
unchanged — the first move and all scores are kept. -/
theorem make_move_idempotent (ctx : RoomCtx) (pid : String) (mv : Move) (p : PlayerCtx)
    (hst : ctx.state = .ROUND_AWAIT_MOVES)
    (hp : playerOf ctx pid = some p)
    (hmoved : p.state = .MOVED) :
    make_move ctx pid mv = .ok (ctx, [.MOVE_DUPLICATE pid]) := by
  unfold make_move getPlayer
  rw [hp]
  simp [requireState, hst, hmoved, ok_bind]

/-- Normal form of a round resolution: with two players and two recorded
moves it succeeds, emits exactly one round-result event, and updates the
scores according to `judge`. -/
theorem resolve_round_ok (ctx : RoomCtx) (p1 p2 : PlayerCtx) (m1 m2 : Move)
    (hst : ctx.state = .ROUND_AWAIT_MOVES)
    (hpl : ctx.players = [p1, p2])
    (h1 : p1.last_move = some m1) (h2 : p2.last_move = some m2) :
    ∃ c e, resolve_round ctx = .ok (c, e) ∧
      (e.filter isRoundResult).length = 1 ∧
      score_view c = (match judge m1 m2 with
        | .DRAW => [(p1.pid, p1.score), (p2.pid, p2.score)]
        | .WIN => [(p1.pid, p1.score + 1), (p2.pid, p2.score)]
        | .LOSE => [(p1.pid, p1.score), (p2.pid, p2.score + 1)]) := by
  have hrs : requireState ctx .ROUND_AWAIT_MOVES = .ok () := by
    simp [requireState, hst]
  unfold resolve_round
  rw [hrs]
  dsimp only
  rw [hpl]
  dsimp only
  rw [h1, h2]
  dsimp only
  cases hj : judge m1 m2 with
  | DRAW =>
    simp only [reduceIte]
    exact ⟨_, _, rfl,
      by simp [isRoundResult, filter_after_round],
      by rw [score_view_after_round]; simp [score_view]⟩
  | WIN =>
    simp only [reduceIte]
    exact ⟨_, _, rfl,
      by simp [isRoundResult, filter_after_round],
      by rw [score_view_after_round]; simp [score_view]⟩
  | LOSE =>
    simp only [reduceIte]
    exact ⟨_, _, rfl,
      by simp [isRoundResult, filter_after_round],
      by rw [score_view_after_round]; simp [score_view]⟩

/-- C3: resolving a round with both moves recorded increments the winner's
score by exactly one on a decision and changes no score on a draw; the other
participant's score is untouched in every case. -/
theorem resolve_round_scores (ctx : RoomCtx) (p1 p2 : PlayerCtx) (m1 m2 : Move)
    (hst : ctx.state = .ROUND_AWAIT_MOVES)
    (hpl : ctx.players = [p1, p2])
    (h1 : p1.last_move = some m1) (h2 : p2.last_move = some m2) :
    ∃ c e, resolve_round ctx = .ok (c, e) ∧
      (judge m1 m2 = .DRAW → score_view c = [(p1.pid, p1.score), (p2.pid, p2.score)]) ∧
      (judge m1 m2 = .WIN → score_view c = [(p1.pid, p1.score + 1), (p2.pid, p2.score)]) ∧
      (judge m1 m2 = .LOSE → score_view c = [(p1.pid, p1.score), (p2.pid, p2.score + 1)]) := by
  obtain ⟨c, e, hres, hcount, hscore⟩ := resolve_round_ok ctx p1 p2 m1 m2 hst hpl h1 h2
  refine ⟨c, e, hres, ?_, ?_, ?_⟩ <;> intro hj <;> rw [hscore, hj]

/-- C6: every reachable room holds at most two participants, and a join by a
third, distinct pid is rejected with the room-full transition error — the
dispatch produces no new room context, so the two existing participants and
the room state are untouched. -/
theorem room_capacity_invariant :
    (∀ ctx : RoomCtx, Reachable ctx → ctx.players.length ≤ 2) ∧
    (∀ (ctx : RoomCtx) (pid : String), ctx.players.length = 2 →
      (∀ q ∈ ctx.players, q.pid ≠ pid) →
      player_join ctx pid = .error "Room is full (2/2).") := by
  constructor
  · intro ctx h
    exact reachable_le_two h
  · intro ctx pid hlen hnot
    have hc : containsPid ctx pid = false := by
      simp only [containsPid, List.any_eq_false]
      intro q hq
      simpa using hnot q hq
    unfold player_join
    rw [hc]
    simp [hlen]

/-- Witness for C6: the fresh room satisfies the bound, and a third join into
a concrete full room errors. -/
theorem room_capacity_invariant_witness :
    initRoom.players.length ≤ 2 ∧
    player_join c3ctx "P3" = .error "Room is full (2/2)." :=
  ⟨room_capacity_invariant.1 initRoom Reachable.init,
   room_capacity_invariant.2 c3ctx "P3" (by decide) (by decide)⟩

/-- The after-round logic always establishes `post_round_ok`. -/
theorem after_round_post (ctx : RoomCtx) (d : Bool) :
    post_round_ok (after_round ctx d).1 := by
  unfold post_round_ok after_round
  cases hw : match_winner_pid ctx with
  | some w =>
    dsimp only
    refine ⟨Or.inl rfl, ?_, fun _ => rfl⟩
    intro _
    unfold match_winner_pid at hw
    rw [Option.map_eq_some'] at hw
    obtain ⟨p, hfp, _⟩ := hw
    have hp := List.find?_some hfp
    have hmem := List.mem_of_find?_eq_some hfp
    refine ⟨{ p with state := .BETWEEN_ROUNDS }, ?_, ?_⟩
    · simp only [setPlayers, List.mem_map]
      exact ⟨p, hmem, rfl⟩
    · simpa [wins_needed] using hp
  | none =>
    dsimp only
    refine ⟨Or.inr rfl, ?_, ?_⟩
    · intro hcontra
      simp [setPlayers] at hcontra
    · rintro ⟨q, hqmem, hqs⟩
      exfalso
      unfold match_winner_pid at hw
      rw [Option.map_eq_none'] at hw
      have hall := List.find?_eq_none.mp hw
      simp only [setPlayers, List.mem_map] at hqmem
      obtain ⟨q0, hq0, rfl⟩ := hqmem
      have hq0n := hall q0 hq0
      simp only [decide_eq_true_eq] at hq0n
      exact hq0n (by simpa [wins_needed] using hqs)

/-- Witness for C3 at a concrete room: ROCK vs SCISSORS gives P1 the point. -/
theorem resolve_round_scores_witness :
    ∃ c e, resolve_round c3ctx = .ok (c, e) ∧
      (judge .ROCK .SCISSORS = .DRAW → score_view c = [("P1", 0), ("P2", 0)]) ∧
      (judge .ROCK .SCISSORS = .WIN → score_view c = [("P1", 1), ("P2", 0)]) ∧
      (judge .ROCK .SCISSORS = .LOSE → score_view c = [("P1", 0), ("P2", 1)]) :=
  resolve_round_scores c3ctx ⟨"P1", .MOVED, some .ROCK, 0⟩
    ⟨"P2", .MOVED, some .SCISSORS, 0⟩ .ROCK .SCISSORS rfl rfl rfl rfl

/-- Witness for C5: P1 resubmitting PAPER after having moved ROCK is a no-op. -/
theorem make_move_idempotent_witness :
    make_move c5ctx "P1" Move.PAPER = .ok (c5ctx, [.MOVE_DUPLICATE "P1"]) :=
  make_move_idempotent c5ctx "P1" .PAPER ⟨"P1", .MOVED, some .ROCK, 0⟩
    rfl (by decide) rfl

/-- C7: round timeout in the awaiting-moves phase: with both participants
moved it is a no-op; the sole participant with a recorded move wins the round
by forfeit (their score +1, the other unchanged); with no recorded moves the
round is a draw with no score change; every resolving branch lands in the
common post-round condition (`MATCH_OVER` iff `wins_needed` reached, else
`READY_CHECK`). -/
theorem round_timeout_spec (ctx : RoomCtx) (p1 p2 : PlayerCtx)
    (hne : p1.pid ≠ p2.pid)
    (hst : ctx.state = .ROUND_AWAIT_MOVES)
    (hpl : ctx.players = [p1, p2]) :
    (p1.state = .MOVED → p2.state = .MOVED → round_timeout ctx = .ok (ctx, [])) ∧
    (∀ m1, p1.last_move = some m1 → p2.last_move = none → p2.state ≠ .MOVED →
      ∃ c e, round_timeout ctx = .ok (c, .ROUND_TIMEOUT_WIN p1.pid :: e) ∧
        score_view c = [(p1.pid, p1.score + 1), (p2.pid, p2.score)] ∧ post_round_ok c) ∧
    (∀ m2, p1.last_move = none → p2.last_move = some m2 → p1.state ≠ .MOVED →
      ∃ c e, round_timeout ctx = .ok (c, .ROUND_TIMEOUT_WIN p2.pid :: e) ∧
        score_view c = [(p1.pid, p1.score), (p2.pid, p2.score + 1)] ∧ post_round_ok c) ∧
    (p1.last_move = none → p2.last_move = none → p1.state ≠ .MOVED →
      ∃ c e, round_timeout ctx = .ok (c, .ROUND_TIMEOUT_DRAW :: e) ∧
        score_view c = [(p1.pid, p1.score), (p2.pid, p2.score)] ∧ post_round_ok c) := by
  have hrs : requireState ctx .ROUND_AWAIT_MOVES = .ok () := by
    simp [requireState, hst]
  refine ⟨?_, ?_, ?_, ?_⟩
  · intro h1s h2s
    have hb : bothP ctx (fun q => q.state == PlayerState.MOVED) = .ok true := by
      simp [bothP, requirePlayersCount, hpl, h1s, h2s]
    unfold round_timeout
    rw [hrs]
    dsimp only
    rw [hb]
    rfl
  · intro m1 hm1 hm2 hp2
    have hq2 : (p2.state == PlayerState.MOVED) = false := by
      rw [beq_eq_false_iff_ne]
      exact hp2
    have hb : bothP ctx (fun q => q.state == PlayerState.MOVED) = .ok false := by
      simp [bothP, requirePlayersCount, hpl, hq2]
    have hq1 : (p1.pid == p1.pid) = true := by simp
    have hq21 : (p2.pid == p1.pid) = false := by
      rw [beq_eq_false_iff_ne]
      exact Ne.symm hne
    unfold round_timeout
    rw [hrs]
    dsimp only
    rw [hb]
    simp only [reduceIte, hpl, hm1, hm2, List.filter_cons, List.filter_nil,
      Option.isSome_some, Option.isSome_none, List.map_cons, List.map_nil]
    refine ⟨_, _, rfl, ?_, after_round_post _ false⟩
    rw [score_view_after_round]
    simp [score_view, hq1, hq21]
  · intro m2 hm1 hm2 hp1
    have hq1 : (p1.state == PlayerState.MOVED) = false := by
      rw [beq_eq_false_iff_ne]
      exact hp1
    have hb : bothP ctx (fun q => q.state == PlayerState.MOVED) = .ok false := by
      simp [bothP, requirePlayersCount, hpl, hq1]
    have hq2 : (p2.pid == p2.pid) = true := by simp
    have hq12 : (p1.pid == p2.pid) = false := by
      rw [beq_eq_false_iff_ne]
      exact hne
    unfold round_timeout
    rw [hrs]
    dsimp only
    rw [hb]
    simp only [reduceIte, hpl, hm1, hm2, List.filter_cons, List.filter_nil,
      Option.isSome_some, Option.isSome_none, List.map_cons, List.map_nil]
    refine ⟨_, _, rfl, ?_, after_round_post _ false⟩
    rw [score_view_after_round]
    simp [score_view, hq2, hq12]
  · intro hm1 hm2 hp1
    have hq1 : (p1.state == PlayerState.MOVED) = false := by
      rw [beq_eq_false_iff_ne]
      exact hp1
    have hb : bothP ctx (fun q => q.state == PlayerState.MOVED) = .ok false := by
      simp [bothP, requirePlayersCount, hpl, hq1]
    unfold round_timeout
    rw [hrs]
    dsimp only
    rw [hb]
    simp only [reduceIte, hpl, hm1, hm2, List.filter_cons, List.filter_nil,
      Option.isSome_none, List.map_nil]
    refine ⟨_, _, rfl, ?_, after_round_post _ true⟩
    rw [score_view_after_round]
    simp [score_view, hpl]

/-- Witness for C7: timing out `c5ctx` (only P1 moved) awards P1 the round. -/
theorem round_timeout_spec_witness :
    ∃ c e, round_timeout c5ctx = .ok (c, .ROUND_TIMEOUT_WIN "P1" :: e) ∧
      score_view c = [("P1", 1), ("P2", 0)] ∧ post_round_ok c :=
  (round_timeout_spec c5ctx ⟨"P1", .MOVED, some .ROCK, 0⟩ ⟨"P2", .READY, none, 0⟩
    (by decide) rfl rfl).2.1 .ROCK rfl rfl (by decide)

/-- C8: actions dispatched from a state that violates their preconditions
fail with a `TransitionError` naming the actual versus expected state (or
occupancy, or player): wrong room phase for `setReady`/`move`/`roundTimeout`,
wrong occupancy for `restartMatch`, unknown participant, wrong participant
state, and a full room for `join`.  An error dispatch returns no room context,
so the room and participant state are untouched — the engine never silently
mutates on an illegal action. -/
theorem transition_error_spec :
    (∀ (ctx : RoomCtx) (pid : String) (r : Bool), ctx.state ≠ .READY_CHECK →
      set_ready ctx pid r =
        .error ("Invalid state " ++ ctx.state.sname ++ ", expected " ++ RoomState.READY_CHECK.sname)) ∧
    (∀ (ctx : RoomCtx) (pid : String) (m : Move), ctx.state ≠ .ROUND_AWAIT_MOVES →
      make_move ctx pid m =
        .error ("Invalid state " ++ ctx.state.sname ++ ", expected " ++ RoomState.ROUND_AWAIT_MOVES.sname)) ∧
    (∀ ctx : RoomCtx, ctx.state ≠ .ROUND_AWAIT_MOVES →
      round_timeout ctx =
        .error ("Invalid state " ++ ctx.state.sname ++ ", expected " ++ RoomState.ROUND_AWAIT_MOVES.sname)) ∧
    (∀ ctx : RoomCtx, ctx.players.length ≠ 2 →
      restart_match ctx =
        .error ("Requires exactly " ++ toString 2 ++ " players, have " ++ toString ctx.players.length)) ∧
    (∀ (ctx : RoomCtx) (pid : String) (r : Bool), ctx.state = .READY_CHECK →
      containsPid ctx pid = false →
      set_ready ctx pid r = .error ("Unknown player " ++ pid)) ∧
    (∀ (ctx : RoomCtx) (pid : String) (m : Move) (p : PlayerCtx),
      ctx.state = .ROUND_AWAIT_MOVES → playerOf ctx pid = some p →
      p.state ≠ .READY → p.state ≠ .MOVED →
      make_move ctx pid m = .error ("Player " ++ pid ++ " cannot move from " ++ p.state.sname)) ∧
    (∀ (ctx : RoomCtx) (pid : String), containsPid ctx pid = false →
      2 ≤ ctx.players.length →
      player_join ctx pid = .error "Room is full (2/2).") := by
  refine ⟨?_, ?_, ?_, ?_, ?_, ?_, ?_⟩
  · intro ctx pid r h
    unfold set_ready requireState
    rw [if_neg h]
  · intro ctx pid m h
    unfold make_move requireState
    rw [if_neg h]
  · intro ctx h
    unfold round_timeout requireState
    rw [if_neg h]
  · intro ctx h
    unfold restart_match requirePlayersCount
    rw [if_neg h]
  · intro ctx pid r hs hc
    have hf : ctx.players.find? (fun q => q.pid == pid) = none := by
      rw [List.find?_eq_none]
      intro x hx
      exact List.any_eq_false.mp hc x hx
    unfold set_ready requireState getPlayer playerOf
    rw [if_pos hs, hf]
  · intro ctx pid m p hs hp hr hm
    unfold make_move requireState getPlayer
    rw [if_pos hs, hp]
    dsimp only
    rw [if_neg (not_or.mpr ⟨hr, hm⟩)]
  · intro ctx pid hc hlen
    unfold player_join
    rw [hc]
    simp [hlen]

/-- Witness for C8 at concrete rooms: ready-check from an empty room,
restart without two players, and a third join into a full room. -/
theorem transition_error_spec_witness :
    set_ready initRoom "P1" true = .error "Invalid state EMPTY, expected READY_CHECK" ∧
    restart_match initRoom = .error "Requires exactly 2 players, have 0" ∧
    player_join c3ctx "P3" = .error "Room is full (2/2)." :=
  ⟨transition_error_spec.1 initRoom "P1" true (by decide),
   transition_error_spec.2.2.2.1 initRoom (by decide),
   transition_error_spec.2.2.2.2.2.2 c3ctx "P3" (by decide) (by decide)⟩


/-- C9 counterexample: in the reachable room `c9ctx` (P1 is READY), a rejoin
by P1 is accepted but the participant states change (P1 READY -> CONNECTED),
so the claim that a rejoin leaves room and participant state otherwise
unchanged is false on the code. -/
theorem player_join_rejoin_counterexample :
    Reachable c9ctx ∧
    ∃ c e, player_join c9ctx "P1" = .ok (c, e) ∧
      c.players.map (fun q => q.state) ≠ c9ctx.players.map (fun q => q.state) := by
  constructor
  · have h1 : player_join initRoom "P1" =
        .ok ({ best_of := 5, round_id := 0,
               players := [⟨"P1", .CONNECTED, none, 0⟩], last_result := none,
               state := .ONE_WAITING }, [.PLAYER_JOINED "P1"]) := by rfl
    have h2 : player_join
        { best_of := 5, round_id := 0,
          players := [⟨"P1", .CONNECTED, none, 0⟩], last_result := none,
          state := .ONE_WAITING } "P2" =
        .ok ({ best_of := 5, round_id := 0,
               players := [⟨"P1", .CONNECTED, none, 0⟩, ⟨"P2", .CONNECTED, none, 0⟩],
               last_result := none, state := .READY_CHECK }, [.PLAYER_JOINED "P2"]) := by rfl
    have h3 : set_ready
        { best_of := 5, round_id := 0,
          players := [⟨"P1", .CONNECTED, none, 0⟩, ⟨"P2", .CONNECTED, none, 0⟩],
          last_result := none, state := .READY_CHECK } "P1" true =
        .ok (c9ctx, [.PLAYER_READY "P1"]) := by rfl
    exact Reachable.ready (Reachable.join (Reachable.join Reachable.init h1) h2) h3
  · exact ⟨_, _, rfl, by decide⟩

/-- C9 amended: a join by a pid already present is accepted (never
room-full), reported as `PLAYER_REJOINED`, and keeps the same participant
record — pids, scores and recorded moves preserved, absent participants
untouched — but the rejoining participant's state is forced to CONNECTED and
the room state is recomputed from the player count. -/
theorem player_join_rejoin (ctx : RoomCtx) (pid : String)
    (hmem : containsPid ctx pid = true) :
    ∃ ctx1, player_join ctx pid = .ok (ctx1, [.PLAYER_REJOINED pid]) ∧
      ctx1.players.map (fun q => q.pid) = ctx.players.map (fun q => q.pid) ∧
      ctx1.players.map (fun q => q.score) = ctx.players.map (fun q => q.score) ∧
      ctx1.players.map (fun q => q.last_move) = ctx.players.map (fun q => q.last_move) ∧
      (∀ q ∈ ctx1.players, q.pid = pid → q.state = .CONNECTED) ∧
      (∀ q ∈ ctx.players, q.pid ≠ pid → q ∈ ctx1.players) ∧
      ctx1.round_id = ctx.round_id ∧ ctx1.best_of = ctx.best_of ∧
      ctx1.last_result = ctx.last_result ∧
      ctx1.state = (recalc_after_join ctx).state := by
  unfold player_join
  rw [hmem]
  simp only [reduceIte]
  refine ⟨_, rfl, ?_, ?_, ?_, ?_, ?_, ?_, ?_, ?_, ?_⟩
  · rw [recalc_players]
    simp only [updatePlayer, List.map_map]
    apply List.map_congr_left
    intro q hq
    by_cases h : q.pid = pid <;> simp [h]
  · rw [recalc_players]
    simp only [updatePlayer, List.map_map]
    apply List.map_congr_left
    intro q hq
    by_cases h : q.pid = pid <;> simp [h]
  · rw [recalc_players]
    simp only [updatePlayer, List.map_map]
    apply List.map_congr_left
    intro q hq
    by_cases h : q.pid = pid <;> simp [h]
  · rw [recalc_players]
    intro q hq hqpid
    simp only [updatePlayer, List.mem_map] at hq
    obtain ⟨q0, hq0, rfl⟩ := hq
    by_cases h : q0.pid = pid
    · simp [h]
    · rw [if_neg (by simpa using h)] at hqpid
      exact absurd hqpid h
  · rw [recalc_players]
    intro q hq hqpid
    simp only [updatePlayer, List.mem_map]
    refine ⟨q, hq, ?_⟩
    rw [if_neg (by simpa using hqpid)]
  · exact (recalc_scalars _).1
  · exact (recalc_scalars _).2.1
  · exact (recalc_scalars _).2.2
  · exact recalc_state_eq _ _ (by simp [updatePlayer])

/-- Witness for the amended C9 at the concrete room `c9ctx`. -/
theorem player_join_rejoin_witness :
    ∃ ctx1, player_join c9ctx "P1" = .ok (ctx1, [.PLAYER_REJOINED "P1"]) ∧
      ctx1.players.map (fun q => q.pid) = c9ctx.players.map (fun q => q.pid) ∧
      ctx1.players.map (fun q => q.score) = c9ctx.players.map (fun q => q.score) ∧
      ctx1.players.map (fun q => q.last_move) = c9ctx.players.map (fun q => q.last_move) ∧
      (∀ q ∈ ctx1.players, q.pid = "P1" → q.state = .CONNECTED) ∧
      (∀ q ∈ c9ctx.players, q.pid ≠ "P1" → q ∈ ctx1.players) ∧
      ctx1.round_id = c9ctx.round_id ∧ ctx1.best_of = c9ctx.best_of ∧
      ctx1.last_result = c9ctx.last_result ∧
      ctx1.state = (recalc_after_join c9ctx).state :=
  player_join_rejoin c9ctx "P1" (by decide)


/-- C10: with both participants ready in the awaiting-moves phase, the two
submission orders produce identical final room contexts, the identical single
round-result event, and exactly one round-result event per round. -/
theorem move_order_independence (ctx : RoomCtx) (p1 p2 : PlayerCtx) (m1 m2 : Move)
    (hst : ctx.state = .ROUND_AWAIT_MOVES) (hpl : ctx.players = [p1, p2])
    (hne : p1.pid ≠ p2.pid) (h1s : p1.state = .READY) (h2s : p2.state = .READY) :
    ∃ cA eA cAB eAB cB eB cBA eBA,
      make_move ctx p1.pid m1 = .ok (cA, eA) ∧
      make_move cA p2.pid m2 = .ok (cAB, eAB) ∧
      make_move ctx p2.pid m2 = .ok (cB, eB) ∧
      make_move cB p1.pid m1 = .ok (cBA, eBA) ∧
      cAB = cBA ∧
      (eA ++ eAB).filter isRoundResult = (eB ++ eBA).filter isRoundResult ∧
      ((eA ++ eAB).filter isRoundResult).length = 1 := by
  have hb11 : (p1.pid == p1.pid) = true := by simp
  have hb22 : (p2.pid == p2.pid) = true := by simp
  have hb21 : (p2.pid == p1.pid) = false := by
    rw [beq_eq_false_iff_ne]; exact Ne.symm hne
  have hb12 : (p1.pid == p2.pid) = false := by
    rw [beq_eq_false_iff_ne]; exact hne
  have hrs : requireState ctx .ROUND_AWAIT_MOVES = .ok () := by
    simp [requireState, hst]
  have hgA : getPlayer ctx p1.pid = .ok p1 := by
    simp [getPlayer, playerOf, hpl, List.find?_cons, hb11]
  have hgB : getPlayer ctx p2.pid = .ok p2 := by
    simp [getPlayer, playerOf, hpl, List.find?_cons, hb12, hb22]
  -- run A, first move
  have hAplayers : (updatePlayer ctx p1.pid
      (fun q => { q with last_move := some m1, state := PlayerState.MOVED })).players =
      [{ p1 with last_move := some m1, state := PlayerState.MOVED }, p2] := by
    simp [updatePlayer, hpl, hb11, Ne.symm hne]
  have hbA : bothP (updatePlayer ctx p1.pid
      (fun q => { q with last_move := some m1, state := PlayerState.MOVED }))
      (fun q => q.state == PlayerState.MOVED) = .ok false := by
    rw [bothP, requirePlayersCount, hAplayers]
    simp [h2s]
  have stepA1 : make_move ctx p1.pid m1 =
      .ok (updatePlayer ctx p1.pid
        (fun q => { q with last_move := some m1, state := PlayerState.MOVED }),
        [.MOVE_ACCEPTED p1.pid]) := by
    unfold make_move
    rw [hrs]
    dsimp only
    rw [hgA]
    dsimp only
    simp only [h1s, reduceIte]
    rw [hbA]
    rfl
  -- run A, second move
  have hrsA : requireState (updatePlayer ctx p1.pid
      (fun q => { q with last_move := some m1, state := PlayerState.MOVED }))
      .ROUND_AWAIT_MOVES = .ok () := by
    simp [requireState, updatePlayer, hst]
  have hgA2 : getPlayer (updatePlayer ctx p1.pid
      (fun q => { q with last_move := some m1, state := PlayerState.MOVED })) p2.pid = .ok p2 := by
    rw [getPlayer, playerOf, hAplayers]
    simp [List.find?_cons, hb12, hb22]
  have hABplayers : (updatePlayer (updatePlayer ctx p1.pid
      (fun q => { q with last_move := some m1, state := PlayerState.MOVED })) p2.pid
      (fun q => { q with last_move := some m2, state := PlayerState.MOVED })).players =
      [{ p1 with last_move := some m1, state := PlayerState.MOVED },
       { p2 with last_move := some m2, state := PlayerState.MOVED }] := by
    rw [updatePlayer_players, hAplayers]
    simp [hne, hb22]
  have hbAB : bothP (updatePlayer (updatePlayer ctx p1.pid
      (fun q => { q with last_move := some m1, state := PlayerState.MOVED })) p2.pid
      (fun q => { q with last_move := some m2, state := PlayerState.MOVED }))
      (fun q => q.state == PlayerState.MOVED) = .ok true := by
    simp [bothP, requirePlayersCount, hABplayers]
  obtain ⟨cR, eR, hres, hcount, hscore⟩ :=
    resolve_round_ok
      (updatePlayer (updatePlayer ctx p1.pid
        (fun q => { q with last_move := some m1, state := PlayerState.MOVED })) p2.pid
        (fun q => { q with last_move := some m2, state := PlayerState.MOVED }))
      { p1 with last_move := some m1, state := PlayerState.MOVED }
      { p2 with last_move := some m2, state := PlayerState.MOVED }
      m1 m2 hst hABplayers rfl rfl
  have stepA2 : make_move (updatePlayer ctx p1.pid
      (fun q => { q with last_move := some m1, state := PlayerState.MOVED })) p2.pid m2 =
      .ok (cR, .MOVE_ACCEPTED p2.pid :: eR) := by
    unfold make_move
    rw [hrsA]
    dsimp only
    rw [hgA2]
    dsimp only
    simp only [h2s, reduceIte]
    rw [hbAB]
    dsimp only
    rw [hres]
    simp
  -- run B, first move (P2 moves first)
  have hBplayers : (updatePlayer ctx p2.pid
      (fun q => { q with last_move := some m2, state := PlayerState.MOVED })).players =
      [p1, { p2 with last_move := some m2, state := PlayerState.MOVED }] := by
    simp [updatePlayer, hpl, hne, hb22]
  have hbB : bothP (updatePlayer ctx p2.pid
      (fun q => { q with last_move := some m2, state := PlayerState.MOVED }))
      (fun q => q.state == PlayerState.MOVED) = .ok false := by
    rw [bothP, requirePlayersCount, hBplayers]
    simp [h1s]
  have stepB1 : make_move ctx p2.pid m2 =
      .ok (updatePlayer ctx p2.pid
        (fun q => { q with last_move := some m2, state := PlayerState.MOVED }),
        [.MOVE_ACCEPTED p2.pid]) := by
    unfold make_move
    rw [hrs]
    dsimp only
    rw [hgB]
    dsimp only
    simp only [h2s, reduceIte]
    rw [hbB]
    rfl
  -- run B, second move: the room after both updates is the same as in run A
  have hBAplayers : (updatePlayer (updatePlayer ctx p2.pid
      (fun q => { q with last_move := some m2, state := PlayerState.MOVED })) p1.pid
      (fun q => { q with last_move := some m1, state := PlayerState.MOVED })).players =
      [{ p1 with last_move := some m1, state := PlayerState.MOVED },
       { p2 with last_move := some m2, state := PlayerState.MOVED }] := by
    rw [updatePlayer_players, hBplayers]
    simp [Ne.symm hne, hb11]
  have hUeq : updatePlayer (updatePlayer ctx p2.pid
      (fun q => { q with last_move := some m2, state := PlayerState.MOVED })) p1.pid
      (fun q => { q with last_move := some m1, state := PlayerState.MOVED }) =
      updatePlayer (updatePlayer ctx p1.pid
      (fun q => { q with last_move := some m1, state := PlayerState.MOVED })) p2.pid
      (fun q => { q with last_move := some m2, state := PlayerState.MOVED }) := by
    have hL := hBAplayers
    have hR := hABplayers
    simp only [updatePlayer] at hL hR ⊢
    simp only [RoomCtx.mk.injEq, true_and, and_true]
    rw [hL, hR]
  have hrsB : requireState (updatePlayer ctx p2.pid
      (fun q => { q with last_move := some m2, state := PlayerState.MOVED }))
      .ROUND_AWAIT_MOVES = .ok () := by
    simp [requireState, updatePlayer, hst]
  have hgB2 : getPlayer (updatePlayer ctx p2.pid
      (fun q => { q with last_move := some m2, state := PlayerState.MOVED })) p1.pid = .ok p1 := by
    rw [getPlayer, playerOf, hBplayers]
    simp [List.find?_cons, hb11]
  have stepB2 : make_move (updatePlayer ctx p2.pid
      (fun q => { q with last_move := some m2, state := PlayerState.MOVED })) p1.pid m1 =
      .ok (cR, .MOVE_ACCEPTED p1.pid :: eR) := by
    unfold make_move
    rw [hrsB]
    dsimp only
    rw [hgB2]
    dsimp only
    simp only [h1s, reduceIte]
    rw [hUeq, hbAB]
    dsimp only
    rw [hres]
    simp
  refine ⟨_, _, cR, _, _, _, cR, _, stepA1, stepA2, stepB1, stepB2, rfl, ?_, ?_⟩
  · simp [isRoundResult]
  · simp only [List.filter_append, List.filter_cons, isRoundResult]
    simpa [isRoundResult] using hcount

/-- Witness for C10 at a concrete round: ROCK vs SCISSORS in both orders. -/
theorem move_order_independence_witness :
    ∃ cA eA cAB eAB cB eB cBA eBA,
      make_move c10ctx "P1" Move.ROCK = .ok (cA, eA) ∧
      make_move cA "P2" Move.SCISSORS = .ok (cAB, eAB) ∧
      make_move c10ctx "P2" Move.SCISSORS = .ok (cB, eB) ∧
      make_move cB "P1" Move.ROCK = .ok (cBA, eBA) ∧
      cAB = cBA ∧
      (eA ++ eAB).filter isRoundResult = (eB ++ eBA).filter isRoundResult ∧
      ((eA ++ eAB).filter isRoundResult).length = 1 :=
  move_order_independence c10ctx ⟨"P1", .READY, none, 0⟩ ⟨"P2", .READY, none, 0⟩
    .ROCK .SCISSORS rfl rfl (by decide) rfl rfl

end RPS
